import Mathlib

/-!
Verification development for the gridsync view-state coordinator
(`src/gridsync/gui/main_window.py`) and the preference store
(`src/gridsync/preferences.py`).

Each definition is a shallow embedding of the corresponding Python code:
Qt model data (`item(row, col).data(Qt.UserRole)`) becomes `Option Nat`
(`none` = nothing recorded), Python truthiness of such a value is the
explicit `optTruthy`, stateful widget mutation becomes explicit state
passing over a `WindowState` record, and `try ... except KeyError: return`
becomes a membership test guarding the update.
-/

set_option autoImplicit false

namespace Gridsync

/-- Python truthiness of an optional integer (`None` and `0` are falsy). -/
def optTruthy : Option Nat → Bool
  | none => false
  | some n => n != 0

/-! ## QuitGuard: `MainWindow.confirm_quit` (main_window.py lines 611-643)

One row of a folder model: column 1 data is the sync status
(`1` = Syncing), column 2 data is the last-sync mtime. -/

structure FolderRow where
  status : Option Nat
  mtime : Option Nat
deriving DecidableEq, Repr

/-- The condition `not status and not mtime` of line 618 ("Loading..."). -/
def folderLoading (f : FolderRow) : Bool :=
  !(optTruthy f.status) && !(optTruthy f.mtime)

/-- The inner `for row in range(model.rowCount())` loop of `confirm_quit`:
scans one gateway's rows, updating the `(folder_loading, folder_syncing)`
pair; both arms `break` out of the row loop at the first hit. -/
def scanFolderRows : List FolderRow → Bool × Bool → Bool × Bool
  | [], acc => acc
  | f :: fs, (fl, fsy) =>
    if folderLoading f then (true, fsy)
    else if f.status == some 1 then (fl, true)
    else scanFolderRows fs (fl, fsy)

/-- The outer loop over `self.central_widget.views` (one view per gateway):
the two flags persist across gateways. -/
def confirm_quit_flags (gws : List (List FolderRow)) : Bool × Bool :=
  gws.foldl (fun acc rows => scanFolderRows rows acc) (false, false)

/-- The three confirmation variants chosen by `confirm_quit`. -/
inductive QuitMessage
  | LoadingWarning
  | SyncingWarning
  | PlainConfirmation
deriving DecidableEq, Repr

/-- `if folder_loading: ... elif folder_syncing: ... else: ...`
(lines 625-643). -/
def confirm_quit_class (gws : List (List FolderRow)) : QuitMessage :=
  let fl := confirm_quit_flags gws
  if fl.1 then QuitMessage.LoadingWarning
  else if fl.2 then QuitMessage.SyncingWarning
  else QuitMessage.PlainConfirmation

/-- Once a row scan is entered with the loading flag already set,
it stays set. -/
theorem scanFolderRows_fst_true (fs : List FolderRow) (sy : Bool) :
    (scanFolderRows fs (true, sy)).1 = true := by
  induction fs with
  | nil => rfl
  | cons f fs ih =>
    unfold scanFolderRows
    by_cases h : folderLoading f = true
    · simp [h]
    · simp only [h]
      by_cases h2 : (f.status == some 1) = true <;> simp [h2, ih]

/-- If a loading row occurs with no Syncing row before it in the same
gateway, the row scan sets the loading flag. -/
theorem scanFolderRows_finds_loading (fpre : List FolderRow) (f : FolderRow)
    (fpost : List FolderRow) (fl sy : Bool)
    (hload : folderLoading f = true)
    (hpre : ∀ f' ∈ fpre, f'.status ≠ some 1) :
    (scanFolderRows (fpre ++ f :: fpost) (fl, sy)).1 = true := by
  induction fpre generalizing fl sy with
  | nil => simp [scanFolderRows, hload]
  | cons p rest ih =>
    have hp : p.status ≠ some 1 := hpre p (by simp)
    unfold scanFolderRows
    by_cases h : folderLoading p = true
    · simp [h, scanFolderRows_fst_true]
    · have h2 : (p.status == some 1) = false := by
        simpa using hp
      simp only [List.cons_append, h, h2]
      simp only [Bool.false_eq_true, if_false]
      exact ih fl sy (fun f' hf' => hpre f' (List.mem_cons_of_mem p hf'))

/-- The gateway fold preserves an already-set loading flag. -/
theorem confirm_quit_fold_fst_true (gs : List (List FolderRow))
    (acc : Bool × Bool) (h : acc.1 = true) :
    (gs.foldl (fun a rows => scanFolderRows rows a) acc).1 = true := by
  induction gs generalizing acc with
  | nil => exact h
  | cons rows rest ih =>
    simp only [List.foldl_cons]
    apply ih
    obtain ⟨a1, a2⟩ := acc
    cases a1 with
    | false => simp at h
    | true => exact scanFolderRows_fst_true rows a2

/-- C1 (amended): if some gateway's folder sequence contains a folder with
no recorded status and no recorded last-sync-time that is not preceded,
within that same gateway, by a row of status Syncing, then `confirm_quit`
classifies the quit as Loading, never Syncing, regardless of Syncing
folders elsewhere. -/
theorem confirm_quit_loading_priority (gws : List (List FolderRow))
    (rows fpre fpost : List FolderRow) (f : FolderRow)
    (hmem : rows ∈ gws) (hrows : rows = fpre ++ f :: fpost)
    (hload : folderLoading f = true)
    (hpre : ∀ f' ∈ fpre, f'.status ≠ some 1) :
    confirm_quit_class gws = QuitMessage.LoadingWarning := by
  obtain ⟨gpre, gpost, hg⟩ := List.append_of_mem hmem
  have hflag : (confirm_quit_flags gws).1 = true := by
    unfold confirm_quit_flags
    rw [hg, List.foldl_append, List.foldl_cons]
    apply confirm_quit_fold_fst_true
    obtain ⟨a1, a2⟩ := List.foldl (fun a rows => scanFolderRows rows a)
      (false, false) gpre
    cases a1 with
    | false =>
      rw [hrows]
      exact scanFolderRows_finds_loading fpre f fpost false a2 hload hpre
    | true => exact scanFolderRows_fst_true rows a2
  unfold confirm_quit_class
  simp [hflag]

/-- Witness for the amended C1 at a concrete registry. -/
theorem confirm_quit_loading_priority_witness :
    folderLoading ⟨none, none⟩ = true ∧
      confirm_quit_class [[⟨some 1, some 1⟩], [⟨none, none⟩, ⟨some 1, some 1⟩]]
        = QuitMessage.LoadingWarning :=
  ⟨by decide,
   confirm_quit_loading_priority _ [⟨none, none⟩, ⟨some 1, some 1⟩]
     [] [⟨some 1, some 1⟩] ⟨none, none⟩ (by decide) rfl (by decide)
     (by intro f' hf'; simp at hf')⟩

/-- C1 counterexample: a single gateway whose rows are a Syncing folder
followed by a loading folder (no status, no mtime). The claim demands
classification Loading; `confirm_quit` breaks out of the row scan at the
Syncing row and classifies Syncing. -/
theorem confirm_quit_loading_priority_counterexample :
    (∃ rows ∈ [[(⟨some 1, some 1⟩ : FolderRow), ⟨none, none⟩]],
       ∃ f ∈ rows, f.status = none ∧ f.mtime = none) ∧
      confirm_quit_class [[⟨some 1, some 1⟩, ⟨none, none⟩]]
          = QuitMessage.SyncingWarning ∧
      confirm_quit_class [[⟨some 1, some 1⟩, ⟨none, none⟩]]
          ≠ QuitMessage.LoadingWarning := by
  decide

/-! ## NotificationQueue: `show_news_message`, `_maybe_show_news_message`,
`showEvent` (main_window.py lines 423-454 and 684-690)

A news message is the tuple `(gateway, title, message)`; the gateway is
referenced by identity, embedded as a `Nat` id. -/

structure NewsMessage where
  gateway : Nat
  title : String
  body : String
deriving DecidableEq, Repr

/-- The notification-relevant state: `self.gui.unread_messages`,
`self.pending_news_message` (the empty tuple `()` is `none`), window
visibility, the log of display requests (`msgbox.show()` calls), and the
count of `self.gui.systray.update()` calls (the visual indicator). -/
structure NotifState where
  unread : List NewsMessage
  pendingNews : Option NewsMessage
  visible : Bool
  displayed : List NewsMessage
  systrayUpdates : Nat
deriving DecidableEq, Repr

/-- `MainWindow.show_news_message` (lines 423-446): shows the message box,
then `try: unread_messages.remove(tuple) except ValueError: return`, and
only on successful removal `self.gui.systray.update()`. Python
`list.remove` deletes the first occurrence, as `List.erase` does. -/
def show_news_message (s : NotifState) (m : NewsMessage) : NotifState :=
  let s1 := { s with displayed := s.displayed ++ [m] }
  if m ∈ s1.unread then
    { s1 with unread := s1.unread.erase m,
              systrayUpdates := s1.systrayUpdates + 1 }
  else s1

/-- `MainWindow._maybe_show_news_message` (lines 448-454): always append to
the unread list and update the indicator; then display immediately when
visible, else overwrite the single pending slot. -/
def maybe_show_news_message (s : NotifState) (m : NewsMessage) : NotifState :=
  let s1 := { s with unread := s.unread ++ [m],
                     systrayUpdates := s.systrayUpdates + 1 }
  if s1.visible then show_news_message s1 m
  else { s1 with pendingNews := some m }

/-- `MainWindow.showEvent` (lines 684-690): if a pending message is set,
clear the slot and display it (the source defers the display through
`QTimer.singleShot(0, ...)`; the deferred call is composed directly here,
which is its effect once the zero-delay tick fires). -/
def showEvent (s : NotifState) : NotifState :=
  match s.pendingNews with
  | none => s
  | some m => show_news_message { s with pendingNews := none } m

/-- C4: while the window is hidden each enqueue overwrites the single
pending slot, so after two hidden enqueues a `showEvent` displays only the
second message, while the unread list accumulated both and the first stays
unread until it is itself displayed. -/
theorem news_single_pending_slot (s : NotifState) (m1 m2 : NewsMessage)
    (hvis : s.visible = false) :
    (∀ m : NewsMessage, (maybe_show_news_message s m).pendingNews = some m) ∧
    ((maybe_show_news_message (maybe_show_news_message s m1) m2).pendingNews
        = some m2) ∧
    ((maybe_show_news_message (maybe_show_news_message s m1) m2).unread
        = s.unread ++ [m1, m2]) ∧
    ((maybe_show_news_message (maybe_show_news_message s m1) m2).displayed
        = s.displayed) ∧
    ((showEvent (maybe_show_news_message (maybe_show_news_message s m1) m2)).displayed
        = s.displayed ++ [m2]) ∧
    ((showEvent (maybe_show_news_message (maybe_show_news_message s m1) m2)).pendingNews
        = none) ∧
    ((showEvent (maybe_show_news_message (maybe_show_news_message s m1) m2)).unread
        = (s.unread ++ [m1, m2]).erase m2) ∧
    (m1 ≠ m2 →
      m1 ∈ (showEvent (maybe_show_news_message (maybe_show_news_message s m1) m2)).unread) := by
  have hm2 : m2 ∈ s.unread ++ [m1, m2] := by simp
  refine ⟨fun m => by simp [maybe_show_news_message, hvis],
    ?_, ?_, ?_, ?_, ?_, ?_, ?_⟩
  all_goals simp [maybe_show_news_message, hvis, showEvent,
    show_news_message, hm2]
  intro hne
  rw [List.mem_erase_of_ne hne]
  simp

/-- Witness for C4 at concrete messages and an initially empty hidden
state. -/
theorem news_single_pending_slot_witness :
    (⟨[], none, false, [], 0⟩ : NotifState).visible = false ∧
    (showEvent (maybe_show_news_message
        (maybe_show_news_message ⟨[], none, false, [], 0⟩ ⟨0, "t1", "b1"⟩)
        ⟨0, "t2", "b2"⟩)).displayed = [⟨0, "t2", "b2"⟩] ∧
    ⟨0, "t1", "b1"⟩ ∈ (showEvent (maybe_show_news_message
        (maybe_show_news_message ⟨[], none, false, [], 0⟩ ⟨0, "t1", "b1"⟩)
        ⟨0, "t2", "b2"⟩)).unread := by
  have h := news_single_pending_slot ⟨[], none, false, [], 0⟩
    ⟨0, "t1", "b1"⟩ ⟨0, "t2", "b2"⟩ rfl
  refine ⟨rfl, ?_, h.2.2.2.2.2.2.2 (by decide)⟩
  rw [h.2.2.2.2.1]
  rfl

/-- C5 (amended): marking a tuple displayed removes exactly its first
occurrence from the unread list when present and then updates the visual
indicator; when the tuple is absent the removal failure is silently
swallowed, the list is unchanged, and the indicator update is skipped
(the `except ValueError` branch returns before `systray.update()`). -/
theorem show_news_message_spec (s : NotifState) (m : NewsMessage) :
    ((show_news_message s m).displayed = s.displayed ++ [m]) ∧
    (m ∈ s.unread →
      (show_news_message s m).unread = s.unread.erase m ∧
      ((show_news_message s m).unread.count m = s.unread.count m - 1) ∧
      (show_news_message s m).systrayUpdates = s.systrayUpdates + 1) ∧
    (m ∉ s.unread →
      (show_news_message s m).unread = s.unread ∧
      (show_news_message s m).systrayUpdates = s.systrayUpdates) := by
  refine ⟨?_, ?_, ?_⟩
  · unfold show_news_message
    by_cases h : m ∈ s.unread <;> simp [h]
  · intro h
    simp [show_news_message, h, List.count_erase_self]
  · intro h
    simp [show_news_message, h]

/-- Witness for the amended C5: one invocation on a state containing the
tuple, one on a state not containing it. -/
theorem show_news_message_spec_witness :
    ((⟨0, "t", "b"⟩ : NewsMessage) ∈ [(⟨0, "t", "b"⟩ : NewsMessage)] ∧
      (show_news_message ⟨[⟨0, "t", "b"⟩], none, true, [], 0⟩
        ⟨0, "t", "b"⟩).systrayUpdates = 1) ∧
    ((⟨0, "t", "b"⟩ : NewsMessage) ∉ ([] : List NewsMessage) ∧
      (show_news_message ⟨[], none, true, [], 0⟩
        ⟨0, "t", "b"⟩).systrayUpdates = 0) :=
  ⟨⟨by decide,
    ((show_news_message_spec ⟨[⟨0, "t", "b"⟩], none, true, [], 0⟩
      ⟨0, "t", "b"⟩).2.1 (by decide)).2.2⟩,
   ⟨by decide,
    ((show_news_message_spec ⟨[], none, true, [], 0⟩
      ⟨0, "t", "b"⟩).2.2 (by decide)).2⟩⟩

/-- C5 counterexample: marking a tuple displayed when it is absent from
the unread list does NOT trigger the visual indicator update (the claim
says the update is triggered in both cases). -/
theorem show_news_message_absent_counterexample :
    (⟨0, "t", "b"⟩ : NewsMessage) ∉ ([] : List NewsMessage) ∧
    (show_news_message ⟨[], none, true, [], 0⟩ ⟨0, "t", "b"⟩).systrayUpdates
      = (⟨[], none, true, [], 0⟩ : NotifState).systrayUpdates := by
  constructor
  · decide
  · rfl

/-! ## PreferenceStore: `src/gridsync/preferences.py`

`Preferences.set`/`Preferences.get` delegate to
`set_preference`/`get_preference`, which construct a `gridsync.config.Config`
over the backing ini file and call `Config.set`/`Config.get`. -/

/-- The lookup failure raised for a never-set key. -/
inductive PrefError
  | NotFound
deriving DecidableEq, Repr

/-- Modelled from the spec: `gridsync.config.Config` is imported by
`preferences.py` but its module is not under `src/`. Per the spec, the
backing file is a grouped INI-style map from (section, option) pairs to
string values, written with a full load-modify-store cycle per `set`
(last write wins, keys unique per pair) and read back with `NotFound` on
a never-set pair. The file contents are embedded as an association list
of ((section, option), value) entries. -/
structure Config where
  entries : List ((String × String) × String)
deriving DecidableEq, Repr

/-- Modelled from the spec: overwrite the entry for a (section, option)
pair, appending a fresh entry when the pair is absent (creating the
section if absent). -/
def Config.setEntry : List ((String × String) × String) →
    String × String → String → List ((String × String) × String)
  | [], k, v => [(k, v)]
  | e :: rest, k, v =>
    if e.1 = k then (k, v) :: rest else e :: Config.setEntry rest k v

/-- Modelled from the spec: look up the value for a (section, option)
pair; a never-set pair fails with `NotFound`. -/
def Config.getEntry : List ((String × String) × String) →
    String × String → Except PrefError String
  | [], _ => Except.error PrefError.NotFound
  | e :: rest, k =>
    if e.1 = k then Except.ok e.2 else Config.getEntry rest k

/-- `Config.set` as used by `set_preference`. -/
def Config.set (c : Config) (sec opt value : String) : Config :=
  ⟨Config.setEntry c.entries (sec, opt) value⟩

/-- `Config.get` as used by `get_preference`. -/
def Config.get (c : Config) (sec opt : String) : Except PrefError String :=
  Config.getEntry c.entries (sec, opt)

/-- `Preferences` (preferences.py lines 16-36) holds the backing config
file; its state is the file contents. -/
structure Preferences where
  config_file : Config
deriving DecidableEq, Repr

/-- `Preferences.set` → `set_preference` → `Config.set` (lines 25-30 and
39-46). -/
def Preferences.set (p : Preferences) (sec opt value : String) : Preferences :=
  ⟨p.config_file.set sec opt value⟩

/-- `Preferences.get` → `get_preference` → `Config.get` (lines 32-36 and
49-55). -/
def Preferences.get (p : Preferences) (sec opt : String) :
    Except PrefError String :=
  p.config_file.get sec opt

/-- A fresh preferences file with no entry ever set. -/
def Preferences.empty : Preferences := ⟨⟨[]⟩⟩

/-- Apply a list of `set` operations (sec, opt, value) in order. -/
def Preferences.applySets (p : Preferences) :
    List (String × String × String) → Preferences
  | [] => p
  | (sec, opt, v) :: ops => Preferences.applySets (p.set sec opt v) ops

theorem Config.getEntry_setEntry_self
    (l : List ((String × String) × String)) (k : String × String)
    (v : String) : Config.getEntry (Config.setEntry l k v) k = Except.ok v := by
  induction l with
  | nil => simp [Config.setEntry, Config.getEntry]
  | cons e rest ih =>
    unfold Config.setEntry
    by_cases h : e.1 = k
    · simp [h, Config.getEntry]
    · simp [h, Config.getEntry, ih]

theorem Config.getEntry_setEntry_other
    (l : List ((String × String) × String)) (k k' : String × String)
    (v : String) (hne : k' ≠ k) :
    Config.getEntry (Config.setEntry l k' v) k = Config.getEntry l k := by
  induction l with
  | nil => simp [Config.setEntry, Config.getEntry, hne]
  | cons e rest ih =>
    unfold Config.setEntry
    by_cases h : e.1 = k'
    · simp [h, Config.getEntry, hne]
    · rw [if_neg h]
      unfold Config.getEntry
      by_cases h2 : e.1 = k <;> simp [h2, ih]

/-- C6: setting a (section, option) pair to a value and reading it back
returns exactly that value; reading a pair that no sequence of `set`
operations ever touched fails with `NotFound`. -/
theorem preferences_round_trip :
    (∀ (p : Preferences) (sec opt v : String),
      ((p.set sec opt v).get sec opt) = Except.ok v) ∧
    (∀ (ops : List (String × String × String)) (sec opt : String),
      (∀ e ∈ ops, ¬(e.1 = sec ∧ e.2.1 = opt)) →
      (Preferences.empty.applySets ops).get sec opt
        = Except.error PrefError.NotFound) := by
  constructor
  · intro p sec opt v
    exact Config.getEntry_setEntry_self p.config_file.entries (sec, opt) v
  · intro ops sec opt hops
    suffices h : ∀ (p : Preferences),
        p.get sec opt = Except.error PrefError.NotFound →
        (p.applySets ops).get sec opt = Except.error PrefError.NotFound by
      exact h Preferences.empty rfl
    induction ops with
    | nil => intro p hp; exact hp
    | cons e rest ih =>
      intro p hp
      obtain ⟨s0, o0, v0⟩ := e
      have hne : (s0, o0) ≠ (sec, opt) := by
        intro hcontra
        exact hops (s0, o0, v0) (by simp) (by
          simp only [Prod.mk.injEq] at hcontra
          exact ⟨hcontra.1, hcontra.2⟩)
      refine ih (fun e' he' => hops e' (List.mem_cons_of_mem _ he')) _ ?_
      show ((p.set s0 o0 v0).get sec opt) = Except.error PrefError.NotFound
      unfold Preferences.get Preferences.set Config.get Config.set
      rw [Config.getEntry_setEntry_other _ _ _ _ hne]
      exact hp

/-- Witness for C6: the spec's own example round-trip, and a never-set
key after an unrelated write. -/
theorem preferences_round_trip_witness :
    ((Preferences.empty.set "features" "invites" "false").get
        "features" "invites" = Except.ok "false") ∧
    ((¬(("features", "invites", "false").1 = "features" ∧
        ("features", "invites", "false").2.1 = "grid_invites")) ∧
      (Preferences.empty.applySets [("features", "invites", "false")]).get
        "features" "grid_invites" = Except.error PrefError.NotFound) :=
  ⟨preferences_round_trip.1 Preferences.empty "features" "invites" "false",
   by decide,
   preferences_round_trip.2 [("features", "invites", "false")]
     "features" "grid_invites"
     (by intro e he; simp at he; simp [he])⟩

/-! ## Feature flags: `MainWindow.__init__` (main_window.py lines 127-152) -/

/-- The `settings.get("features")` dictionary: the three recognized
options, each possibly absent. An empty dictionary is falsy in Python
exactly like a missing one, and a dictionary whose gets all return `None`
behaves identically, so the whole lookup is embedded as an `Option` of
the three option lookups. -/
structure FeaturesDict where
  grid_invites : Option String
  invites : Option String
  multiple_grids : Option String
deriving DecidableEq, Repr

/-- Python `str.lower()` restricted to the embedded strings (character
wise lowercasing). -/
def pyLower (s : String) : String := s.map Char.toLower

/-- One flag check of `__init__`:
`if value and value.lower() == "false": enabled = False`; the flag starts
`True`. -/
def featureFlagEnabled : Option String → Bool
  | none => true
  | some v => !(v != "" && pyLower v == "false")

/-- Lines 142-152: compute
`(grid_invites_enabled, invites_enabled, multiple_grids_enabled)` from the
`features` settings section. -/
def featureFlagsInit (features : Option FeaturesDict) : Bool × Bool × Bool :=
  match features with
  | none => (true, true, true)
  | some f =>
    (featureFlagEnabled f.grid_invites,
     featureFlagEnabled f.invites,
     featureFlagEnabled f.multiple_grids)

theorem featureFlagEnabled_false_iff (v : Option String) :
    featureFlagEnabled v = false ↔
      ∃ s, v = some s ∧ s ≠ "" ∧ pyLower s = "false" := by
  cases v with
  | none => simp [featureFlagEnabled]
  | some s =>
    simp only [featureFlagEnabled, Option.some.injEq]
    constructor
    · intro h
      simp at h
      exact ⟨s, rfl, h.1, h.2⟩
    · rintro ⟨s', hs', h1, h2⟩
      subst hs'
      simp [h1, h2]

/-- C9: a feature is disabled at startup iff its stored value is a
non-empty string whose lowercase form is exactly `"false"`; any other
value, and absence of the section or option, leaves the feature
enabled. -/
theorem feature_flags_disabled_iff (features : Option FeaturesDict) :
    ((featureFlagsInit features).1 = false ↔
      ∃ f s, features = some f ∧ f.grid_invites = some s ∧
        s ≠ "" ∧ pyLower s = "false") ∧
    ((featureFlagsInit features).2.1 = false ↔
      ∃ f s, features = some f ∧ f.invites = some s ∧
        s ≠ "" ∧ pyLower s = "false") ∧
    ((featureFlagsInit features).2.2 = false ↔
      ∃ f s, features = some f ∧ f.multiple_grids = some s ∧
        s ≠ "" ∧ pyLower s = "false") := by
  cases features with
  | none => simp [featureFlagsInit]
  | some f =>
    simp only [featureFlagsInit, Option.some.injEq]
    refine ⟨?_, ?_, ?_⟩ <;>
      rw [featureFlagEnabled_false_iff] <;>
      constructor
    · rintro ⟨s, hs, h1, h2⟩; exact ⟨f, s, rfl, hs, h1, h2⟩
    · rintro ⟨f', s, hf', hs, h1, h2⟩; subst hf'; exact ⟨s, hs, h1, h2⟩
    · rintro ⟨s, hs, h1, h2⟩; exact ⟨f, s, rfl, hs, h1, h2⟩
    · rintro ⟨f', s, hf', hs, h1, h2⟩; subst hf'; exact ⟨s, hs, h1, h2⟩
    · rintro ⟨s, hs, h1, h2⟩; exact ⟨f, s, rfl, hs, h1, h2⟩
    · rintro ⟨f', s, hf', hs, h1, h2⟩; subst hf'; exact ⟨s, hs, h1, h2⟩

/-! ## ViewStateCoordinator: the `MainWindow` widget state

`Gateway` objects are referenced by identity; `id` stands for that
identity. `zkaps_remaining` is `monitor.zkap_checker.zkaps_remaining`,
which may be uninitialized (`None`); `magic_folders` is the gateway's
folder dictionary, of which only emptiness is read here. -/

structure Gateway where
  id : Nat
  name : String
  zkap_auth_required : Bool
  zkaps_remaining : Option Nat
  magic_folders : List String
deriving DecidableEq, Repr

/-- The three kinds of per-gateway panels held by `CentralWidget`
(`folders_views` / `history_views` / `zkap_views`). -/
inductive ViewKind
  | Folders
  | History
  | Quota
deriving DecidableEq, Repr

/-- The `MainWindow` state touched by gateway selection, view switching
and enablement recomputation. The three `...Views` lists are the key sets
of the `CentralWidget` view dictionaries; `currentWidget` is the central
stacked widget's current page, identified by (gateway id, panel kind);
the `...Checked` fields are the toolbar buttons' checked states and the
`...Enabled` fields their enabled states. `hasInviteAction` records
whether the `invite_action` attribute exists (it is created only when
grid invites are disabled but invites are enabled); the `AttributeError`
fallback in `maybe_enable_actions` leaves `invitesEnabled` untouched when
it does not. -/
structure WindowState where
  gateways : List Gateway
  currentData : Option Gateway
  foldersViews : List Nat
  historyViews : List Nat
  zkapViews : List Nat
  currentWidget : Option (Nat × ViewKind)
  foldersChecked : Bool
  historyChecked : Bool
  zkapsChecked : Bool
  folderBtnEnabled : Bool
  comboEnabled : Bool
  historyBtnEnabled : Bool
  recoveryBtnEnabled : Bool
  foldersBtnEnabled : Bool
  zkapsBtnEnabled : Bool
  invitesEnabled : Bool
  hasInviteAction : Bool
  gridInvitesEnabled : Bool
  multipleGridsEnabled : Bool
  windowTitle : String
  appName : String
deriving DecidableEq, Repr

/-- The condition of line 356-359:
`gateway.zkap_auth_required and not ...zkaps_remaining`. -/
def zkapRestricted (g : Gateway) : Bool :=
  g.zkap_auth_required && !(optTruthy g.zkaps_remaining)

/-- `MainWindow.maybe_enable_actions` (lines 354-404). In the restricted
branch all toolbar controls are disabled and, when the gateway has no
magic folders, the central widget is switched to that gateway's quota
pane and the quota button becomes the checked one; the
`except KeyError: return` leaves the widget and checked states alone when
no quota pane is registered. -/
def maybe_enable_actions (s : WindowState) : WindowState :=
  match s.currentData with
  | none => s
  | some g =>
    if zkapRestricted g then
      let s1 := { s with
        folderBtnEnabled := false, comboEnabled := false,
        historyBtnEnabled := false, recoveryBtnEnabled := false,
        foldersBtnEnabled := false, zkapsBtnEnabled := false,
        invitesEnabled :=
          if s.gridInvitesEnabled then false
          else if s.hasInviteAction then false else s.invitesEnabled }
      if g.magic_folders.isEmpty then
        if s1.zkapViews.contains g.id then
          { s1 with currentWidget := some (g.id, ViewKind.Quota),
                    zkapsChecked := true, historyChecked := false,
                    foldersChecked := false }
        else s1
      else s1
    else
      { s with
        folderBtnEnabled := true, comboEnabled := true,
        historyBtnEnabled := true, recoveryBtnEnabled := true,
        foldersBtnEnabled := true, zkapsBtnEnabled := true,
        invitesEnabled :=
          if s.gridInvitesEnabled then true
          else if s.hasInviteAction then true else s.invitesEnabled }

/-- `MainWindow.set_current_grid_status` (lines 485-490): a no-op when
`current_view()` finds no folders pane for the current gateway, else a
systray update (not part of this state) and `maybe_enable_actions`. -/
def set_current_grid_status (s : WindowState) : WindowState :=
  match s.currentData with
  | none => s
  | some g =>
    if s.foldersViews.contains g.id then maybe_enable_actions s else s

/-- `MainWindow.show_folders_view` (lines 492-502): the
`except KeyError: return` aborts before any checked-state change when the
current gateway has no folders pane (or no gateway is selected). -/
def show_folders_view (s : WindowState) : WindowState :=
  match s.currentData with
  | none => s
  | some g =>
    if s.foldersViews.contains g.id then
      set_current_grid_status
        { s with currentWidget := some (g.id, ViewKind.Folders),
                 foldersChecked := true, zkapsChecked := false,
                 historyChecked := false }
    else s

/-- `MainWindow.show_history_view` (lines 504-514). -/
def show_history_view (s : WindowState) : WindowState :=
  match s.currentData with
  | none => s
  | some g =>
    if s.historyViews.contains g.id then
      set_current_grid_status
        { s with currentWidget := some (g.id, ViewKind.History),
                 foldersChecked := false, zkapsChecked := false,
                 historyChecked := true }
    else s

/-- `MainWindow.show_zkap_view` (lines 516-526). -/
def show_zkap_view (s : WindowState) : WindowState :=
  match s.currentData with
  | none => s
  | some g =>
    if s.zkapViews.contains g.id then
      set_current_grid_status
        { s with currentWidget := some (g.id, ViewKind.Quota),
                 foldersChecked := false, zkapsChecked := true,
                 historyChecked := false }
    else s

/-- `MainWindow.on_grid_selected` (lines 535-547), with the combo-box
index abstracted to the selection it carries: `sel` is
`combo_box.currentData()` after the index change (`none` both for the
"Add new..." row, whose welcome dialog does not touch this state, and
for an empty selection). The view restored is chosen by the global
`history_button.isChecked()`; the title is rewritten only under the
`multiple_grids` feature flag. -/
def on_grid_selected (s : WindowState) (sel : Option Gateway) : WindowState :=
  match sel with
  | none => { s with currentData := none }
  | some g =>
    let s0 := { s with currentData := some g }
    let s1 := if s0.historyChecked then show_history_view s0
              else show_folders_view s0
    if s1.multipleGridsEnabled then
      { s1 with windowTitle := s1.appName ++ " - " ++ g.name }
    else s1

/-- The panel-related observables: (foldersChecked, historyChecked,
zkapsChecked, currentWidget). -/
def panelState (s : WindowState) :
    Bool × Bool × Bool × Option (Nat × ViewKind) :=
  (s.foldersChecked, s.historyChecked, s.zkapsChecked, s.currentWidget)

theorem maybe_enable_actions_panel (s : WindowState) (g : Gateway)
    (hsel : s.currentData = some g) :
    panelState (maybe_enable_actions s) =
      if zkapRestricted g && g.magic_folders.isEmpty
          && s.zkapViews.contains g.id
      then (false, false, true, some (g.id, ViewKind.Quota))
      else panelState s := by
  unfold maybe_enable_actions
  rw [hsel]
  by_cases h1 : zkapRestricted g = true
  · by_cases h2 : g.magic_folders.isEmpty = true
    · by_cases h3 : g.id ∈ s.zkapViews
      · simp [h1, h2, h3, panelState]
      · simp [h1, h2, h3, panelState]
    · simp [h1, h2, panelState]
  · simp [h1, panelState]

theorem set_current_grid_status_panel (s : WindowState) (g : Gateway)
    (hsel : s.currentData = some g) :
    panelState (set_current_grid_status s) =
      if s.foldersViews.contains g.id && zkapRestricted g
          && g.magic_folders.isEmpty && s.zkapViews.contains g.id
      then (false, false, true, some (g.id, ViewKind.Quota))
      else panelState s := by
  by_cases hf : g.id ∈ s.foldersViews <;>
    simp [set_current_grid_status, hsel, hf, maybe_enable_actions_panel s g hsel]

/-- C3: for a registered gateway that requires ZKAP authorization and has
zero ZKAPs remaining, `maybe_enable_actions` disables every interactive
control; when it additionally has no magic folders the active view is
forced to the quota pane (quota button checked, others unchecked), and
when it has magic folders the active view and checked states are left
unchanged. -/
theorem quota_exhausted_enablement (s : WindowState) (g : Gateway)
    (hsel : s.currentData = some g)
    (hauth : g.zkap_auth_required = true)
    (hz : g.zkaps_remaining = some 0)
    (hreg : s.zkapViews.contains g.id = true) :
    ((maybe_enable_actions s).folderBtnEnabled = false ∧
     (maybe_enable_actions s).comboEnabled = false ∧
     (maybe_enable_actions s).historyBtnEnabled = false ∧
     (maybe_enable_actions s).recoveryBtnEnabled = false ∧
     (maybe_enable_actions s).foldersBtnEnabled = false ∧
     (maybe_enable_actions s).zkapsBtnEnabled = false ∧
     (s.gridInvitesEnabled = true ∨ s.hasInviteAction = true →
       (maybe_enable_actions s).invitesEnabled = false)) ∧
    (g.magic_folders = [] →
      (maybe_enable_actions s).currentWidget = some (g.id, ViewKind.Quota) ∧
      (maybe_enable_actions s).zkapsChecked = true ∧
      (maybe_enable_actions s).foldersChecked = false ∧
      (maybe_enable_actions s).historyChecked = false) ∧
    (g.magic_folders ≠ [] →
      (maybe_enable_actions s).currentWidget = s.currentWidget ∧
      (maybe_enable_actions s).zkapsChecked = s.zkapsChecked ∧
      (maybe_enable_actions s).foldersChecked = s.foldersChecked ∧
      (maybe_enable_actions s).historyChecked = s.historyChecked) := by
  have hres : zkapRestricted g = true := by
    simp [zkapRestricted, hauth, hz, optTruthy]
  have hregm : g.id ∈ s.zkapViews := by simpa using hreg
  have hpanel := maybe_enable_actions_panel s g hsel
  refine ⟨⟨?_, ?_, ?_, ?_, ?_, ?_, ?_⟩, ?_, ?_⟩
  · by_cases hmf2 : g.magic_folders.isEmpty = true <;>
      by_cases hz2 : g.id ∈ s.zkapViews <;>
      simp [maybe_enable_actions, hsel, hres, hmf2, hz2]
  · by_cases hmf2 : g.magic_folders.isEmpty = true <;>
      by_cases hz2 : g.id ∈ s.zkapViews <;>
      simp [maybe_enable_actions, hsel, hres, hmf2, hz2]
  · by_cases hmf2 : g.magic_folders.isEmpty = true <;>
      by_cases hz2 : g.id ∈ s.zkapViews <;>
      simp [maybe_enable_actions, hsel, hres, hmf2, hz2]
  · by_cases hmf2 : g.magic_folders.isEmpty = true <;>
      by_cases hz2 : g.id ∈ s.zkapViews <;>
      simp [maybe_enable_actions, hsel, hres, hmf2, hz2]
  · by_cases hmf2 : g.magic_folders.isEmpty = true <;>
      by_cases hz2 : g.id ∈ s.zkapViews <;>
      simp [maybe_enable_actions, hsel, hres, hmf2, hz2]
  · by_cases hmf2 : g.magic_folders.isEmpty = true <;>
      by_cases hz2 : g.id ∈ s.zkapViews <;>
      simp [maybe_enable_actions, hsel, hres, hmf2, hz2]
  · intro h
    rcases h with h | h
    · by_cases hmf2 : g.magic_folders.isEmpty = true <;>
        by_cases hz2 : g.id ∈ s.zkapViews <;>
        simp [maybe_enable_actions, hsel, hres, h, hmf2, hz2]
    · by_cases hgi : s.gridInvitesEnabled = true <;>
        by_cases hmf2 : g.magic_folders.isEmpty = true <;>
        by_cases hz2 : g.id ∈ s.zkapViews <;>
        simp [maybe_enable_actions, hsel, hres, h, hgi, hmf2, hz2]
  · intro hmf
    have h2 : g.magic_folders.isEmpty = true := by simp [hmf]
    rw [hres, h2] at hpanel
    simp [hregm] at hpanel
    simp [panelState] at hpanel
    exact ⟨hpanel.2.2.2, hpanel.2.2.1, hpanel.1, hpanel.2.1⟩
  · intro hmf
    have h2 : g.magic_folders.isEmpty = false := by
      cases hm : g.magic_folders with
      | nil => exact absurd hm hmf
      | cons a l => simp
    rw [h2] at hpanel
    simp at hpanel
    simp [panelState] at hpanel
    exact ⟨hpanel.2.2.2, hpanel.2.2.1, hpanel.1, hpanel.2.1⟩

/-- Witness for C3 at a concrete restricted gateway, one invocation with
no magic folders and one with a magic folder. -/
theorem quota_exhausted_enablement_witness :
    ((⟨[Gateway.mk 0 "G" true (some 0) []], some (Gateway.mk 0 "G" true (some 0) []),
        [0], [0], [0], some (0, ViewKind.Folders), true, false, false,
        true, true, true, true, true, true, true, false, true, true,
        "App", "App"⟩ : WindowState).currentData
      = some (Gateway.mk 0 "G" true (some 0) [])) ∧
    (maybe_enable_actions
      ⟨[Gateway.mk 0 "G" true (some 0) []], some (Gateway.mk 0 "G" true (some 0) []),
        [0], [0], [0], some (0, ViewKind.Folders), true, false, false,
        true, true, true, true, true, true, true, false, true, true,
        "App", "App"⟩).currentWidget = some (0, ViewKind.Quota) ∧
    (maybe_enable_actions
      ⟨[Gateway.mk 0 "G" true (some 0) []], some (Gateway.mk 0 "G" true (some 0) []),
        [0], [0], [0], some (0, ViewKind.Folders), true, false, false,
        true, true, true, true, true, true, true, false, true, true,
        "App", "App"⟩).folderBtnEnabled = false := by
  have h := quota_exhausted_enablement
    ⟨[Gateway.mk 0 "G" true (some 0) []], some (Gateway.mk 0 "G" true (some 0) []),
      [0], [0], [0], some (0, ViewKind.Folders), true, false, false,
      true, true, true, true, true, true, true, false, true, true,
      "App", "App"⟩
    (Gateway.mk 0 "G" true (some 0) []) rfl rfl rfl (by decide)
  exact ⟨rfl, (h.2.1 rfl).1, h.1.1⟩

/-- C7: for a gateway with `zkap_auth_required = False`,
`maybe_enable_actions` enables every control, for every value of
`zkaps_remaining` (zero and uninitialized included), and leaves the
panels and checked states unchanged. -/
theorem no_zkap_auth_all_enabled (s : WindowState) (g : Gateway)
    (hsel : s.currentData = some g)
    (hauth : g.zkap_auth_required = false) :
    (maybe_enable_actions s).folderBtnEnabled = true ∧
    (maybe_enable_actions s).comboEnabled = true ∧
    (maybe_enable_actions s).historyBtnEnabled = true ∧
    (maybe_enable_actions s).recoveryBtnEnabled = true ∧
    (maybe_enable_actions s).foldersBtnEnabled = true ∧
    (maybe_enable_actions s).zkapsBtnEnabled = true ∧
    (s.gridInvitesEnabled = true ∨ s.hasInviteAction = true →
      (maybe_enable_actions s).invitesEnabled = true) ∧
    panelState (maybe_enable_actions s) = panelState s := by
  have hres : zkapRestricted g = false := by
    simp [zkapRestricted, hauth]
  have hpanel := maybe_enable_actions_panel s g hsel
  rw [hres] at hpanel
  simp only [Bool.false_and, Bool.false_eq_true, if_false] at hpanel
  refine ⟨?_, ?_, ?_, ?_, ?_, ?_, ?_, hpanel⟩
  · simp [maybe_enable_actions, hsel, hres]
  · simp [maybe_enable_actions, hsel, hres]
  · simp [maybe_enable_actions, hsel, hres]
  · simp [maybe_enable_actions, hsel, hres]
  · simp [maybe_enable_actions, hsel, hres]
  · simp [maybe_enable_actions, hsel, hres]
  · intro h
    rcases h with h | h
    · simp [maybe_enable_actions, hsel, hres, h]
    · by_cases hgi : s.gridInvitesEnabled = true <;>
        simp [maybe_enable_actions, hsel, hres, h, hgi]

/-- Witness for C7 at a concrete gateway with zero ZKAPs but no ZKAP
authorization requirement. -/
theorem no_zkap_auth_all_enabled_witness :
    ((⟨[Gateway.mk 1 "H" false (some 0) []], some (Gateway.mk 1 "H" false (some 0) []),
        [1], [1], [1], none, false, false, false,
        false, false, false, false, false, false, false, false, true, true,
        "App", "App"⟩ : WindowState).currentData
      = some (Gateway.mk 1 "H" false (some 0) [])) ∧
    (maybe_enable_actions
      ⟨[Gateway.mk 1 "H" false (some 0) []], some (Gateway.mk 1 "H" false (some 0) []),
        [1], [1], [1], none, false, false, false,
        false, false, false, false, false, false, false, false, true, true,
        "App", "App"⟩).folderBtnEnabled = true ∧
    (maybe_enable_actions
      ⟨[Gateway.mk 1 "H" false (some 0) []], some (Gateway.mk 1 "H" false (some 0) []),
        [1], [1], [1], none, false, false, false,
        false, false, false, false, false, false, false, false, true, true,
        "App", "App"⟩).invitesEnabled = true := by
  have h := no_zkap_auth_all_enabled
    ⟨[Gateway.mk 1 "H" false (some 0) []], some (Gateway.mk 1 "H" false (some 0) []),
      [1], [1], [1], none, false, false, false,
      false, false, false, false, false, false, false, false, true, true,
      "App", "App"⟩
    (Gateway.mk 1 "H" false (some 0) []) rfl rfl
  exact ⟨rfl, h.1, h.2.2.2.2.2.2.1 (Or.inl rfl)⟩

theorem show_folders_view_no_pane (s : WindowState) (g : Gateway)
    (hsel : s.currentData = some g) (hf : g.id ∉ s.foldersViews) :
    show_folders_view s = s := by
  simp [show_folders_view, hsel, hf]

theorem show_history_view_no_pane (s : WindowState) (g : Gateway)
    (hsel : s.currentData = some g) (hh : g.id ∉ s.historyViews) :
    show_history_view s = s := by
  simp [show_history_view, hsel, hh]

theorem show_zkap_view_no_pane (s : WindowState) (g : Gateway)
    (hsel : s.currentData = some g) (hz : g.id ∉ s.zkapViews) :
    show_zkap_view s = s := by
  simp [show_zkap_view, hsel, hz]

theorem show_folders_view_panel (s : WindowState) (g : Gateway)
    (hsel : s.currentData = some g) (hf : g.id ∈ s.foldersViews) :
    panelState (show_folders_view s) =
      if zkapRestricted g && g.magic_folders.isEmpty
          && s.zkapViews.contains g.id
      then (false, false, true, some (g.id, ViewKind.Quota))
      else (true, false, false, some (g.id, ViewKind.Folders)) := by
  by_cases h1 : zkapRestricted g = true <;>
    by_cases h2 : g.magic_folders.isEmpty = true <;>
    by_cases h3 : g.id ∈ s.zkapViews <;>
    simp [show_folders_view, hsel, hf, h1, h2, h3,
      set_current_grid_status, maybe_enable_actions, panelState]

theorem show_history_view_panel (s : WindowState) (g : Gateway)
    (hsel : s.currentData = some g) (hh : g.id ∈ s.historyViews) :
    panelState (show_history_view s) =
      if s.foldersViews.contains g.id && zkapRestricted g
          && g.magic_folders.isEmpty && s.zkapViews.contains g.id
      then (false, false, true, some (g.id, ViewKind.Quota))
      else (false, true, false, some (g.id, ViewKind.History)) := by
  by_cases hf : g.id ∈ s.foldersViews <;>
    by_cases h1 : zkapRestricted g = true <;>
    by_cases h2 : g.magic_folders.isEmpty = true <;>
    by_cases h3 : g.id ∈ s.zkapViews <;>
    simp [show_history_view, hsel, hh, hf, h1, h2, h3,
      set_current_grid_status, maybe_enable_actions, panelState]

theorem show_zkap_view_panel (s : WindowState) (g : Gateway)
    (hsel : s.currentData = some g) (hz : g.id ∈ s.zkapViews) :
    panelState (show_zkap_view s) =
      (false, false, true, some (g.id, ViewKind.Quota)) := by
  by_cases hf : g.id ∈ s.foldersViews <;>
    by_cases h1 : zkapRestricted g = true <;>
    by_cases h2 : g.magic_folders.isEmpty = true <;>
    simp [show_zkap_view, hsel, hz, hf, h1, h2,
      set_current_grid_status, maybe_enable_actions, panelState]

/-- C10 (amended): for the current gateway, each view-switch operation
either fails atomically (no pane of that kind registered: the state is
returned unchanged, no widget or checked-state change), or succeeds with
exactly one panel button checked; the checked button and active widget
are those of the requested view, except that the enablement
recomputation forces the quota pane and quota button instead whenever the
gateway is quota-restricted with no magic folders, its quota pane is
registered, and (for the history switch) its folders pane is registered. -/
theorem view_switch_spec (s : WindowState) (g : Gateway)
    (hsel : s.currentData = some g) :
    ((g.id ∉ s.foldersViews → show_folders_view s = s) ∧
     (g.id ∈ s.foldersViews →
       panelState (show_folders_view s) =
         if zkapRestricted g && g.magic_folders.isEmpty
             && s.zkapViews.contains g.id
         then (false, false, true, some (g.id, ViewKind.Quota))
         else (true, false, false, some (g.id, ViewKind.Folders)))) ∧
    ((g.id ∉ s.historyViews → show_history_view s = s) ∧
     (g.id ∈ s.historyViews →
       panelState (show_history_view s) =
         if s.foldersViews.contains g.id && zkapRestricted g
             && g.magic_folders.isEmpty && s.zkapViews.contains g.id
         then (false, false, true, some (g.id, ViewKind.Quota))
         else (false, true, false, some (g.id, ViewKind.History)))) ∧
    ((g.id ∉ s.zkapViews → show_zkap_view s = s) ∧
     (g.id ∈ s.zkapViews →
       panelState (show_zkap_view s) =
         (false, false, true, some (g.id, ViewKind.Quota)))) :=
  ⟨⟨show_folders_view_no_pane s g hsel, show_folders_view_panel s g hsel⟩,
   ⟨show_history_view_no_pane s g hsel, show_history_view_panel s g hsel⟩,
   ⟨show_zkap_view_no_pane s g hsel, show_zkap_view_panel s g hsel⟩⟩

/-- A quota-restricted gateway (ZKAP auth required, zero ZKAPs, no magic
folders) with all three panes registered. -/
def restrictedGw : Gateway := ⟨0, "R", true, some 0, []⟩

/-- A window currently on `restrictedGw`'s quota pane with every control
still enabled. -/
def restrictedWin : WindowState :=
  ⟨[restrictedGw], some restrictedGw, [0], [0], [0],
   some (0, ViewKind.Quota), false, false, true,
   true, true, true, true, true, true, true, false, true, true,
   "App", "App"⟩

/-- Witness for the amended C10: on `restrictedWin`, the folders switch
succeeds and the forced-quota branch applies; the zkap switch checks the
quota button. -/
theorem view_switch_spec_witness :
    restrictedGw.id ∈ restrictedWin.foldersViews ∧
    panelState (show_folders_view restrictedWin) =
      (false, false, true, some (0, ViewKind.Quota)) ∧
    panelState (show_zkap_view restrictedWin) =
      (false, false, true, some (0, ViewKind.Quota)) := by
  have h := view_switch_spec restrictedWin restrictedGw rfl
  refine ⟨by decide, ?_, ?_⟩
  · rw [h.1.2 (by decide)]
    decide
  · rw [h.2.2.2 (by decide)]
    decide

/-- C10 counterexample: switching `restrictedWin` to the folders view
succeeds (the folders pane is registered and the state changes), yet the
folders button ends unchecked — the quota button is the checked one and
the quota pane the active widget. -/
theorem view_switch_counterexample :
    show_folders_view restrictedWin ≠ restrictedWin ∧
    (show_folders_view restrictedWin).foldersChecked = false ∧
    (show_folders_view restrictedWin).zkapsChecked = true ∧
    (show_folders_view restrictedWin).currentWidget
      = some (0, ViewKind.Quota) := by
  decide

theorem show_folders_view_title_inert (s : WindowState) :
    (show_folders_view s).windowTitle = s.windowTitle ∧
    (show_folders_view s).appName = s.appName ∧
    (show_folders_view s).multipleGridsEnabled = s.multipleGridsEnabled := by
  cases hsel : s.currentData with
  | none => simp [show_folders_view, hsel]
  | some g =>
    by_cases hf : g.id ∈ s.foldersViews <;>
      by_cases h1 : zkapRestricted g = true <;>
      by_cases h2 : g.magic_folders.isEmpty = true <;>
      by_cases h3 : g.id ∈ s.zkapViews <;>
      simp [show_folders_view, hsel, hf, h1, h2, h3,
        set_current_grid_status, maybe_enable_actions]

theorem show_history_view_title_inert (s : WindowState) :
    (show_history_view s).windowTitle = s.windowTitle ∧
    (show_history_view s).appName = s.appName ∧
    (show_history_view s).multipleGridsEnabled = s.multipleGridsEnabled := by
  cases hsel : s.currentData with
  | none => simp [show_history_view, hsel]
  | some g =>
    by_cases hh : g.id ∈ s.historyViews <;>
      by_cases hf : g.id ∈ s.foldersViews <;>
      by_cases h1 : zkapRestricted g = true <;>
      by_cases h2 : g.magic_folders.isEmpty = true <;>
      by_cases h3 : g.id ∈ s.zkapViews <;>
      simp [show_history_view, hsel, hh, hf, h1, h2, h3,
        set_current_grid_status, maybe_enable_actions]

theorem title_if_widget (t : WindowState) (n : String) :
    (if t.multipleGridsEnabled then
        { t with windowTitle := t.appName ++ " - " ++ n }
      else t).currentWidget = t.currentWidget := by
  by_cases hm : t.multipleGridsEnabled = true <;> simp [hm]

theorem title_if_title (t : WindowState) (n : String) :
    (if t.multipleGridsEnabled then
        { t with windowTitle := t.appName ++ " - " ++ n }
      else t).windowTitle =
      if t.multipleGridsEnabled then t.appName ++ " - " ++ n
      else t.windowTitle := by
  by_cases hm : t.multipleGridsEnabled = true <;> simp [hm]

theorem on_grid_selected_widget (s : WindowState) (g : Gateway) :
    (on_grid_selected s (some g)).currentWidget =
      (if s.historyChecked then
          show_history_view { s with currentData := some g }
        else show_folders_view { s with currentData := some g }).currentWidget :=
  title_if_widget
    (if s.historyChecked then
        show_history_view { s with currentData := some g }
      else show_folders_view { s with currentData := some g }) g.name

theorem on_grid_selected_title_eq (s : WindowState) (g : Gateway) :
    (on_grid_selected s (some g)).windowTitle =
      (if (if s.historyChecked then
            show_history_view { s with currentData := some g }
          else show_folders_view
            { s with currentData := some g }).multipleGridsEnabled
      then (if s.historyChecked then
            show_history_view { s with currentData := some g }
          else show_folders_view
            { s with currentData := some g }).appName ++ " - " ++ g.name
      else (if s.historyChecked then
            show_history_view { s with currentData := some g }
          else show_folders_view
            { s with currentData := some g }).windowTitle) :=
  title_if_title
    (if s.historyChecked then
        show_history_view { s with currentData := some g }
      else show_folders_view { s with currentData := some g }) g.name

/-- C8 (amended): selecting a gateway rewrites the window title to
"APP_NAME - gateway name" exactly when the `multiple_grids` feature flag
is enabled — independently of how many gateways are configured — and
leaves the title unchanged when the flag is disabled or when the
selection carries no gateway. -/
theorem title_update_iff_flag (s : WindowState) (g : Gateway) :
    ((on_grid_selected s (some g)).windowTitle =
      if s.multipleGridsEnabled then s.appName ++ " - " ++ g.name
      else s.windowTitle) ∧
    (on_grid_selected s none).windowTitle = s.windowTitle := by
  constructor
  · rw [on_grid_selected_title_eq]
    rcases Bool.eq_false_or_eq_true s.historyChecked with hhist | hhist
    · rw [if_pos hhist]
      obtain ⟨ht, ha, hm⟩ :=
        show_history_view_title_inert { s with currentData := some g }
      rw [ht, ha, hm]
    · rw [if_neg (show ¬(s.historyChecked = true) by simp [hhist])]
      obtain ⟨ht, ha, hm⟩ :=
        show_folders_view_title_inert { s with currentData := some g }
      rw [ht, ha, hm]
  · simp [on_grid_selected]

/-- A configuration with exactly one gateway and the `multiple_grids`
feature flag enabled (its default). -/
def soloGw : Gateway := ⟨2, "OnlyGrid", false, some 5, ["f"]⟩

def soloWin : WindowState :=
  ⟨[soloGw], some soloGw, [2], [2], [2], some (2, ViewKind.Folders),
   true, false, false, true, true, true, true, true, true, true, false,
   true, true, "Gridsync", "Gridsync"⟩

/-- C8 counterexample: only a single gateway is configured, yet selecting
it still rewrites the window title (the code tests the `multiple_grids`
feature flag, not the number of configured gateways). -/
theorem title_update_iff_flag_counterexample :
    soloWin.gateways.length = 1 ∧
    (on_grid_selected soloWin (some soloGw)).windowTitle
      = "Gridsync - OnlyGrid" ∧
    (on_grid_selected soloWin (some soloGw)).windowTitle
      ≠ soloWin.windowTitle := by
  refine ⟨rfl, ?_, ?_⟩ <;>
    simp [on_grid_selected, soloWin, soloGw, show_folders_view,
      set_current_grid_status, maybe_enable_actions, zkapRestricted,
      optTruthy]

/-- C2 (amended): re-selecting a gateway does not restore that gateway's
own last-active view. The restored view is chosen by the global
history-button checked state: the newly selected gateway's History pane
when the history button is checked, else its Folders pane (stated for a
gateway that is not quota-restricted, so the enablement recomputation
does not override the choice). In particular a last-selected Quota view
is never restored. -/
theorem gateway_selection_view_restore (s : WindowState) (g : Gateway)
    (hf : g.id ∈ s.foldersViews) (hh : g.id ∈ s.historyViews)
    (hnr : zkapRestricted g = false) :
    (on_grid_selected s (some g)).currentWidget =
      some (g.id, if s.historyChecked then ViewKind.History
                  else ViewKind.Folders) := by
  rw [on_grid_selected_widget]
  rcases Bool.eq_false_or_eq_true s.historyChecked with hhist | hhist
  · rw [if_pos hhist]
    have hp := show_history_view_panel { s with currentData := some g } g
      rfl (by simpa using hh)
    rw [hnr] at hp
    simp only [Bool.false_and, Bool.and_false, Bool.false_eq_true,
      if_false] at hp
    have hwid : (show_history_view
        { s with currentData := some g }).currentWidget
        = some (g.id, ViewKind.History) :=
      congrArg (fun t => t.2.2.2) hp
    rw [hwid]
    simp [hhist]
  · rw [if_neg (show ¬(s.historyChecked = true) by simp [hhist])]
    have hp := show_folders_view_panel { s with currentData := some g } g
      rfl (by simpa using hf)
    rw [hnr] at hp
    simp only [Bool.false_and, Bool.and_false, Bool.false_eq_true,
      if_false] at hp
    have hwid : (show_folders_view
        { s with currentData := some g }).currentWidget
        = some (g.id, ViewKind.Folders) :=
      congrArg (fun t => t.2.2.2) hp
    rw [hwid]
    simp [hhist]

/-- Two non-restricted gateways Alpha (id 0) and Beta (id 1), both with
all three panes registered. -/
def gwAlpha : Gateway := ⟨0, "Alpha", false, some 5, ["f"]⟩

def gwBeta : Gateway := ⟨1, "Beta", false, some 5, ["f"]⟩

def twoGridWin : WindowState :=
  ⟨[gwAlpha, gwBeta], some gwAlpha, [0, 1], [0, 1], [0, 1],
   some (0, ViewKind.Folders), true, false, false,
   true, true, true, true, true, true, true, false, true, true,
   "Gridsync", "Gridsync"⟩

/-- Witness for the amended C2: with the history button unchecked,
re-selecting Alpha lands on Alpha's Folders pane. -/
theorem gateway_selection_view_restore_witness :
    gwAlpha.id ∈ twoGridWin.foldersViews ∧
    gwAlpha.id ∈ twoGridWin.historyViews ∧
    zkapRestricted gwAlpha = false ∧
    (on_grid_selected twoGridWin (some gwAlpha)).currentWidget
      = some (0, ViewKind.Folders) := by
  refine ⟨by decide, by decide, by decide, ?_⟩
  rw [gateway_selection_view_restore twoGridWin gwAlpha (by decide)
    (by decide) (by decide)]
  decide

/-- C2 counterexample: Alpha's last explicitly selected view is Quota
(`show_zkap_view`); after switching to Beta and re-selecting Alpha, the
active view is Alpha's Folders pane, not the Quota pane the claim says is
restored. -/
theorem gateway_selection_view_restore_counterexample :
    (show_zkap_view twoGridWin).currentWidget = some (0, ViewKind.Quota) ∧
    (on_grid_selected (on_grid_selected (show_zkap_view twoGridWin)
        (some gwBeta)) (some gwAlpha)).currentWidget
      = some (0, ViewKind.Folders) ∧
    (on_grid_selected (on_grid_selected (show_zkap_view twoGridWin)
        (some gwBeta)) (some gwAlpha)).currentWidget
      ≠ some (0, ViewKind.Quota) := by
  decide

end Gridsync
